import Mathlib

/-!
Verification of `pypaimon/manifest/schema/data_file_meta.py`:
the `DataFileMeta` manifest-entry record, its Avro-style schema
descriptor `DATA_FILE_META_SCHEMA`, and the file-path derivation
operation `set_file_path`.

The source builds paths with Python `pathlib` (POSIX flavour): a path is
an optional leading root plus a sequence of parts; joining a string onto
a path splits the string on `/`, drops empty parts and `.` parts, and an
argument that starts with `/` replaces the whole path.  We embed paths
accordingly.
-/

namespace Paimon

/-- Split a character list on `/`, producing the raw chunks
(empty chunks included); mirrors how `pathlib` tokenizes a path string. -/
def splitSlash : List Char → List Char → List (List Char)
  | [], acc => [acc.reverse]
  | c :: cs, acc =>
    if c = '/' then acc.reverse :: splitSlash cs [] else splitSlash cs (c :: acc)

/-- The parts of a path string under `pathlib` parsing: chunks between
slashes, with empty chunks and `.` chunks discarded. -/
def parseParts (s : String) : List String :=
  ((splitSlash s.data []).filter (fun p => !p.isEmpty && p ≠ ['.'])).map
    (fun l => String.mk l)

/-- Whether a path string is absolute (starts with `/`). -/
def parseAbs (s : String) : Bool :=
  match s.data with
  | c :: _ => c = '/'
  | [] => false

/-- Embedding of a `pathlib.PurePosixPath` value: an absolute flag (the
leading `/` root) and the normalized list of parts. -/
structure PyPath where
  absolute : Bool
  parts : List String
  deriving Repr, DecidableEq

/-- `pathlib` construction of a path from a string (`Path(s)`). -/
def PyPath.parse (s : String) : PyPath :=
  ⟨parseAbs s, parseParts s⟩

/-- The `/` operator of `pathlib`: join a string onto a path.  A segment
string starting with `/` replaces the path; otherwise its parsed parts
are appended. -/
def PyPath.join (p : PyPath) (s : String) : PyPath :=
  if parseAbs s then ⟨true, parseParts s⟩
  else ⟨p.absolute, p.parts ++ parseParts s⟩

/-- `/`-join a list of path parts (what `"/".join(parts)` produces). -/
def joinParts : List String → String
  | [] => ""
  | [p] => p
  | p :: ps => p ++ "/" ++ joinParts ps

/-- `str()` of a `pathlib` path: `/`-joined parts, with the leading root
when absolute; the empty relative path renders as `.`. -/
def PyPath.render (p : PyPath) : String :=
  if p.absolute then "/" ++ joinParts p.parts
  else if p.parts.isEmpty then "." else joinParts p.parts

/-- Modelled from the spec: `BinaryRow` (in `pypaimon/table/row/binary_row.py`,
outside the provided sources) is used here only through `to_dict`, which the
spec describes as "an ordered mapping from partition-column name to its
string-rendered value".  We embed a partition value as that ordered mapping:
an association list of column name and string-rendered value. -/
abbrev BinaryRow := List (String × String)

/-- Embedding of the `DataFileMeta` dataclass: the twelve required fields,
the six optional trailing fields (defaulting to `None`), and the derived
`file_path` (default `None`).  `bytes` is a list of byte values, a
`datetime` is its epoch timestamp, the opaque stats dictionaries are
association lists. -/
structure DataFileMeta where
  file_name : String
  file_size : Int
  row_count : Int
  min_key : Option BinaryRow
  max_key : Option BinaryRow
  key_stats : Option (List (String × Int))
  value_stats : Option (List (String × Int))
  min_sequence_number : Int
  max_sequence_number : Int
  schema_id : Int
  level : Int
  extra_files : Option (List String)
  creation_time : Option Int := none
  delete_row_count : Option Int := none
  embedded_index : Option (List Nat) := none
  file_source : Option String := none
  value_stats_cols : Option (List String) := none
  external_path : Option String := none
  file_path : Option String := none
  deriving Repr, DecidableEq

/-- Embedding of `DataFileMeta.set_file_path`: starting from the table
path, join one `"<name>=<value>"` segment per partition entry in order,
then `"bucket-<bucket>"`, then `file_name`; store the rendered string on
`file_path`.  The in-place mutation is embedded as returning the updated
record. -/
def DataFileMeta.set_file_path (m : DataFileMeta) (table_path : PyPath)
    (partition : BinaryRow) (bucket : Int) : DataFileMeta :=
  let pb := partition.foldl
    (fun acc fv => acc.join (fv.1 ++ "=" ++ fv.2)) table_path
  let pb := (pb.join ("bucket-" ++ toString bucket)).join m.file_name
  { m with file_path := some pb.render }

/-- The structural types appearing in `DATA_FILE_META_SCHEMA`: primitives,
array-of, and two-branch unions (every union in the schema is the JSON
list `["null", X]`, embedded as `aUnion aNull X`). -/
inductive AvroType
  | aNull
  | aString
  | aLong
  | aInt
  | aBytes
  | aArray (items : AvroType)
  | aUnion (fst snd : AvroType)
  deriving Repr, DecidableEq

/-- A decoded field value of the manifest record encoding. -/
inductive AvroValue
  | vNull
  | vString (s : String)
  | vLong (n : Int)
  | vInt (n : Int)
  | vBytes (b : List Nat)
  | vArrayString (xs : List String)
  deriving Repr, DecidableEq

/-- Whether a value inhabits a non-union structural type. -/
def typeMatchesPrim : AvroType → AvroValue → Bool
  | .aNull, .vNull => true
  | .aString, .vString _ => true
  | .aLong, .vLong _ => true
  | .aInt, .vInt _ => true
  | .aBytes, .vBytes _ => true
  | .aArray .aString, .vArrayString _ => true
  | _, _ => false

/-- Whether a value inhabits a structural type; a union is inhabited by a
value of any of its branches. -/
def typeMatches (t : AvroType) (v : AvroValue) : Bool :=
  match t with
  | .aUnion b1 b2 => typeMatchesPrim b1 v || typeMatchesPrim b2 v
  | _ => typeMatchesPrim t v

/-- One field descriptor of the schema: durable name, structural type,
and the optional decode-time default (`none` when the field declares no
default, i.e. is required). -/
structure AvroField where
  name : String
  type : AvroType
  default : Option AvroValue := none
  deriving Repr, DecidableEq

/-- A record schema: name plus ordered field descriptors. -/
structure AvroSchema where
  name : String
  fields : List AvroField
  deriving Repr, DecidableEq

/-- A field is nullable when its type is a union containing `"null"`. -/
def AvroField.nullable (f : AvroField) : Bool :=
  match f.type with
  | .aUnion b1 b2 => b1 = AvroType.aNull || b2 = AvroType.aNull
  | _ => false

/-- Embedding of `DATA_FILE_META_SCHEMA`, transcribed field by field. -/
def DATA_FILE_META_SCHEMA : AvroSchema :=
  { name := "DataFileMeta"
    fields := [
      { name := "_FILE_NAME", type := .aString },
      { name := "_FILE_SIZE", type := .aLong },
      { name := "_ROW_COUNT", type := .aLong },
      { name := "_MIN_KEY", type := .aBytes },
      { name := "_MAX_KEY", type := .aBytes },
      { name := "_KEY_STATS", type := .aLong },
      { name := "_VALUE_STATS", type := .aLong },
      { name := "_MIN_SEQUENCE_NUMBER", type := .aLong },
      { name := "_MAX_SEQUENCE_NUMBER", type := .aLong },
      { name := "_SCHEMA_ID", type := .aLong },
      { name := "_LEVEL", type := .aInt },
      { name := "_EXTRA_FILES", type := .aArray .aString },
      { name := "_CREATION_TIME", type := .aUnion .aNull .aLong,
        default := some .vNull },
      { name := "_DELETE_ROW_COUNT", type := .aUnion .aNull .aLong,
        default := some .vNull },
      { name := "_EMBEDDED_FILE_INDEX", type := .aUnion .aNull .aBytes,
        default := some .vNull },
      { name := "_FILE_SOURCE", type := .aUnion .aNull .aInt,
        default := some .vNull },
      { name := "_VALUE_STATS_COLS",
        type := .aUnion .aNull (.aArray .aString),
        default := some .vNull },
      { name := "_EXTERNAL_PATH", type := .aUnion .aNull .aString,
        default := some .vNull }
    ] }

/-- Modelled from the spec: the manifest record decoder is an external
collaborator (an Avro-style (de)serialization engine, not under the
provided sources).  Per the spec, decoding one field of a raw record
looks the durable field name up; a present value must match the declared
type; an absent value resolves to the declared default, and an absent
required field (no default) is a decode error. -/
def decodeField (r : List (String × AvroValue)) (f : AvroField) :
    Except String AvroValue :=
  match r.lookup f.name with
  | some v =>
    if typeMatches f.type v then .ok v
    else .error (f.name ++ ": type mismatch")
  | none =>
    match f.default with
    | some d => .ok d
    | none => .error (f.name ++ ": missing required field")

/-- Modelled from the spec: decoding a whole raw record under a schema
decodes every field in schema order, failing if any field fails. -/
def decodeRecord (sch : AvroSchema) (r : List (String × AvroValue)) :
    Except String (List AvroValue) :=
  sch.fields.mapM (decodeField r)

/-- A plain path segment: nonempty, containing no `/`, and not `.` —
exactly the strings `pathlib` joins as one new part.  File names and
partition values are such segments in any well-formed table (a file name
is a directory entry, unique within its `(partition, bucket)` directory). -/
def isPlainSeg (s : String) : Prop :=
  s.data ≠ [] ∧ '/' ∉ s.data ∧ s.data ≠ ['.']

instance (s : String) : Decidable (isPlainSeg s) := by
  unfold isPlainSeg; infer_instance

/-- Modelled from the spec: validity of a `DataFileMeta` record.  The
dataclass performs no construction-time validation; the spec assigns
these invariants to the writer: non-negative size, row count and level,
`min_sequence_number <= max_sequence_number`, and `min_key`/`max_key`
both present or both absent. -/
def DataFileMeta.wellFormed (m : DataFileMeta) : Prop :=
  0 ≤ m.file_size ∧ 0 ≤ m.row_count ∧ 0 ≤ m.level ∧
  m.min_sequence_number ≤ m.max_sequence_number ∧
  (m.min_key = none ↔ m.max_key = none)

instance (m : DataFileMeta) : Decidable m.wellFormed := by
  unfold DataFileMeta.wellFormed; infer_instance

/-- Splitting a slash-free character list yields a single chunk. -/
theorem splitSlash_no_slash (l : List Char) (acc : List Char) (h : '/' ∉ l) :
    splitSlash l acc = [acc.reverse ++ l] := by
  induction l generalizing acc with
  | nil => simp [splitSlash]
  | cons c cs ih =>
    rw [List.mem_cons, not_or] at h
    obtain ⟨h1, h2⟩ := h
    have hc : ¬c = '/' := fun e => h1 e.symm
    simp only [splitSlash, if_neg hc, ih _ h2, List.reverse_cons,
      List.append_assoc, List.singleton_append]

/-- Rebuilding a string from its character data is the identity. -/
theorem mk_data_eq (s : String) : String.mk s.data = s := rfl

/-- A plain segment parses to exactly itself as a single part. -/
theorem parseParts_plain (s : String) (h : isPlainSeg s) :
    parseParts s = [s] := by
  obtain ⟨h1, h2, h3⟩ := h
  unfold parseParts
  rw [splitSlash_no_slash s.data [] h2]
  have hne : s.data.isEmpty = false := by
    cases hd : s.data with
    | nil => exact absurd hd h1
    | cons c cs => rfl
  simp [hne, h3, mk_data_eq]

/-- A plain segment is not an absolute path string. -/
theorem parseAbs_plain (s : String) (h : isPlainSeg s) :
    parseAbs s = false := by
  obtain ⟨h1, h2, h3⟩ := h
  unfold parseAbs
  cases hd : s.data with
  | nil => rfl
  | cons c cs =>
    have hc : c ≠ '/' := by
      intro e
      exact h2 (hd ▸ (e ▸ List.mem_cons_self c cs))
    simp [hc]

/-- Joining a plain segment appends exactly one part. -/
theorem join_plain (p : PyPath) (s : String) (h : isPlainSeg s) :
    p.join s = ⟨p.absolute, p.parts ++ [s]⟩ := by
  unfold PyPath.join
  rw [parseAbs_plain s h, parseParts_plain s h]
  simp

/-- Folding plain-segment joins over a partition appends the rendered
`name=value` segments in order. -/
theorem foldl_join_plain (partition : BinaryRow) (p : PyPath)
    (h : ∀ fv ∈ partition, isPlainSeg (fv.1 ++ "=" ++ fv.2)) :
    partition.foldl (fun acc fv => acc.join (fv.1 ++ "=" ++ fv.2)) p =
      ⟨p.absolute, p.parts ++ partition.map (fun fv => fv.1 ++ "=" ++ fv.2)⟩ := by
  induction partition generalizing p with
  | nil => simp
  | cons fv rest ih =>
    rw [List.foldl_cons, join_plain p _ (h fv (List.mem_cons_self fv rest)),
      ih _ (fun x hx => h x (List.mem_cons_of_mem fv hx))]
    simp

/-- Unfolding `joinParts` on a list of at least two parts. -/
theorem joinParts_cons2 (a b : String) (l : List String) :
    joinParts (a :: b :: l) = a ++ "/" ++ joinParts (b :: l) := rfl

/-- `joinParts` over a snoc appends a slash and the final part. -/
theorem joinParts_snoc (a : String) (rest : List String) (s : String) :
    joinParts (a :: (rest ++ [s])) = joinParts (a :: rest) ++ "/" ++ s := by
  induction rest generalizing a with
  | nil => rfl
  | cons b rest2 ih =>
    rw [show a :: ((b :: rest2) ++ [s]) = a :: b :: (rest2 ++ [s]) from rfl,
      joinParts_cons2, ih b, joinParts_cons2]
    simp only [String.append_assoc]

/-- Rendering a path with one more part appends `"/" ++ part`. -/
theorem render_snoc (abs : Bool) (ps : List String) (s : String)
    (h : ps ≠ []) :
    PyPath.render ⟨abs, ps ++ [s]⟩ = PyPath.render ⟨abs, ps⟩ ++ "/" ++ s := by
  cases ps with
  | nil => exact absurd rfl h
  | cons a rest =>
    cases abs with
    | true => simp [PyPath.render, joinParts_snoc, String.append_assoc]
    | false => simp [PyPath.render, joinParts_snoc, String.append_assoc]

/-- Rendering a path extended by a part list equals folding slash-append
over the rendered base path. -/
theorem render_foldl (abs : Bool) (ps : List String) (L : List String)
    (h : ps ≠ []) :
    PyPath.render ⟨abs, ps ++ L⟩ =
      L.foldl (fun acc seg => acc ++ "/" ++ seg) (PyPath.render ⟨abs, ps⟩) := by
  induction L generalizing ps with
  | nil => simp
  | cons seg rest ih =>
    have h2 : ps ++ [seg] ≠ [] := by simp
    rw [show ps ++ seg :: rest = (ps ++ [seg]) ++ rest by simp,
      ih (ps ++ [seg]) h2, render_snoc abs ps seg h, List.foldl_cons]

/-- Decimal digit characters are never the path separator. -/
theorem digitChar_ne_slash (n : Nat) : Nat.digitChar n ≠ '/' := by
  by_cases h : n < 16
  · interval_cases n <;> decide
  · unfold Nat.digitChar
    rw [if_neg (by omega : ¬n = 0), if_neg (by omega : ¬n = 1),
      if_neg (by omega : ¬n = 2), if_neg (by omega : ¬n = 3),
      if_neg (by omega : ¬n = 4), if_neg (by omega : ¬n = 5),
      if_neg (by omega : ¬n = 6), if_neg (by omega : ¬n = 7),
      if_neg (by omega : ¬n = 8), if_neg (by omega : ¬n = 9),
      if_neg (by omega : ¬n = 10), if_neg (by omega : ¬n = 11),
      if_neg (by omega : ¬n = 12), if_neg (by omega : ¬n = 13),
      if_neg (by omega : ¬n = 14), if_neg (by omega : ¬n = 15)]
    decide

/-- `Nat.toDigitsCore` emits no path separator beyond its accumulator. -/
theorem toDigitsCore_no_slash (b : Nat) (fuel : Nat) (n : Nat)
    (ds : List Char) (hds : ∀ c ∈ ds, c ≠ '/') :
    ∀ c ∈ Nat.toDigitsCore b fuel n ds, c ≠ '/' := by
  induction fuel generalizing n ds with
  | zero => exact hds
  | succ fuel ih =>
    have hext : ∀ c ∈ Nat.digitChar (n % b) :: ds, c ≠ '/' := by
      intro c hc
      rcases List.mem_cons.mp hc with h | h
      · exact h ▸ digitChar_ne_slash (n % b)
      · exact hds c h
    show ∀ c ∈ (if n / b = 0 then Nat.digitChar (n % b) :: ds
      else Nat.toDigitsCore b fuel (n / b) (Nat.digitChar (n % b) :: ds)),
      c ≠ '/'
    split
    · exact hext
    · exact ih (n / b) _ hext

/-- The decimal rendering of a natural number, as character data. -/
theorem repr_data (n : Nat) : (Nat.repr n).data = Nat.toDigits 10 n := rfl

/-- The decimal rendering of a natural number contains no separator. -/
theorem repr_no_slash (n : Nat) : '/' ∉ (Nat.repr n).data := by
  rw [repr_data]
  intro h
  exact toDigitsCore_no_slash 10 (n + 1) n [] (fun c hc => absurd hc
    (List.not_mem_nil c)) '/' h rfl

/-- `str(bucket)` of an integer bucket contains no separator. -/
theorem toString_int_no_slash (b : Int) : '/' ∉ (toString b).data := by
  cases b with
  | ofNat m => exact repr_no_slash m
  | negSucc m =>
    show '/' ∉ ("-" ++ Nat.repr (m + 1)).data
    rw [String.data_append]
    intro h
    rcases List.mem_append.mp h with h | h
    · revert h; decide
    · exact repr_no_slash (m + 1) h

/-- The bucket path segment `"bucket-" ++ str(bucket)` is always a plain
segment, for every integer bucket. -/
theorem bucket_seg_plain (b : Int) : isPlainSeg ("bucket-" ++ toString b) := by
  refine ⟨?_, ?_, ?_⟩
  · rw [String.data_append,
      show "bucket-".data = ['b', 'u', 'c', 'k', 'e', 't', '-'] from rfl]
    simp
  · rw [String.data_append]
    intro h
    rcases List.mem_append.mp h with h | h
    · revert h; decide
    · exact toString_int_no_slash b h
  · rw [String.data_append,
      show "bucket-".data = ['b', 'u', 'c', 'k', 'e', 't', '-'] from rfl]
    simp

/-- Left cancellation for string concatenation. -/
theorem append_left_cancel_str {s t1 t2 : String} (h : s ++ t1 = s ++ t2) :
    t1 = t2 := by
  have hd := congrArg String.data h
  rw [String.data_append, String.data_append] at hd
  exact String.ext (List.append_cancel_left hd)

/-- Rendering determines the final part: two paths sharing base parts and
absoluteness with plain final parts render equal only if the final parts
agree. -/
theorem render_snoc_inj (abs : Bool) (ps : List String) (f1 f2 : String)
    (h : PyPath.render ⟨abs, ps ++ [f1]⟩ = PyPath.render ⟨abs, ps ++ [f2]⟩) :
    f1 = f2 := by
  cases ps with
  | nil =>
    cases abs with
    | true =>
      simp only [PyPath.render, List.nil_append] at h
      have h1 : "/" ++ joinParts [f1] = "/" ++ joinParts [f2] := h
      exact append_left_cancel_str h1
    | false =>
      simp only [PyPath.render, List.nil_append, List.isEmpty_cons] at h
      exact h
  | cons a rest =>
    rw [render_snoc abs (a :: rest) f1 (List.cons_ne_nil a rest),
      render_snoc abs (a :: rest) f2 (List.cons_ne_nil a rest)] at h
    rw [String.append_assoc, String.append_assoc] at h
    exact append_left_cancel_str (append_left_cancel_str h)

/-- A concrete record used to instantiate the hypotheses of the theorems
below. -/
def sampleMeta : DataFileMeta :=
  { file_name := "data-0001.parquet"
    file_size := 1024
    row_count := 100
    min_key := none
    max_key := none
    key_stats := none
    value_stats := none
    min_sequence_number := 1
    max_sequence_number := 10
    schema_id := 0
    level := 0
    extra_files := some [] }

/-- C1: for every table root, partition value, bucket and record,
`set_file_path` stores the string obtained from the rendered table root
by appending `"/<column>=<value>"` per partition column in iteration
order, then `"/bucket-<bucket>"`, then `"/<file_name>"`.  The partition
segments and the file name are assumed to be plain path segments
(nonempty, no `/`, not `.`), as file names unique within a directory and
partition values are; the table root is assumed to have at least one
component. -/
theorem set_file_path_correct (m : DataFileMeta) (root : PyPath)
    (partition : BinaryRow) (bucket : Int)
    (hpart : ∀ fv ∈ partition, isPlainSeg (fv.1 ++ "=" ++ fv.2))
    (hname : isPlainSeg m.file_name) (hroot : root.parts ≠ []) :
    (m.set_file_path root partition bucket).file_path =
      some ((partition.map (fun fv => fv.1 ++ "=" ++ fv.2) ++
          ["bucket-" ++ toString bucket, m.file_name]).foldl
        (fun acc seg => acc ++ "/" ++ seg) root.render) := by
  unfold DataFileMeta.set_file_path
  rw [foldl_join_plain partition root hpart]
  dsimp only
  rw [join_plain _ _ (bucket_seg_plain bucket), join_plain _ _ hname]
  have hsh : ((root.parts ++ partition.map (fun fv => fv.1 ++ "=" ++ fv.2)) ++
      ["bucket-" ++ toString bucket]) ++ [m.file_name] =
      root.parts ++ (partition.map (fun fv => fv.1 ++ "=" ++ fv.2) ++
        ["bucket-" ++ toString bucket, m.file_name]) := by
    simp
  simp only [hsh]
  rw [render_foldl root.absolute root.parts _ hroot]

/-- C1 witness: the spec example, partition `{"dt": "2024-01-01"}`,
bucket 3, file name `"data-0001.parquet"`, root `"/warehouse/t1"`. -/
theorem set_file_path_correct_witness :
    (sampleMeta.set_file_path (PyPath.parse "/warehouse/t1")
        [("dt", "2024-01-01")] 3).file_path =
      some "/warehouse/t1/dt=2024-01-01/bucket-3/data-0001.parquet" := by
  have h := set_file_path_correct sampleMeta (PyPath.parse "/warehouse/t1")
    [("dt", "2024-01-01")] 3 (by decide) (by decide) (by decide)
  exact h.trans (by decide)

/-- C2: under one table root, partition and bucket, path resolution is
injective and deterministic in `file_name`: records with distinct plain
file names resolve to distinct paths, and records with the same file
name resolve to the same path. -/
theorem set_file_path_injective (root : PyPath) (partition : BinaryRow)
    (bucket : Int) (m1 m2 : DataFileMeta)
    (h1 : isPlainSeg m1.file_name) (h2 : isPlainSeg m2.file_name) :
    (m1.file_name ≠ m2.file_name →
      (m1.set_file_path root partition bucket).file_path ≠
        (m2.set_file_path root partition bucket).file_path) ∧
    (m1.file_name = m2.file_name →
      (m1.set_file_path root partition bucket).file_path =
        (m2.set_file_path root partition bucket).file_path) := by
  constructor
  · intro hne heq
    apply hne
    unfold DataFileMeta.set_file_path at heq
    dsimp only at heq
    rw [join_plain _ _ h1, join_plain _ _ h2, Option.some.injEq] at heq
    exact render_snoc_inj _ _ _ _ heq
  · intro he
    unfold DataFileMeta.set_file_path
    dsimp only
    rw [he]

/-- A second concrete record, differing from `sampleMeta` in file name. -/
def sampleMetaB : DataFileMeta := { sampleMeta with file_name := "data-0002.parquet" }

/-- C2 witness: at root `"/warehouse/t1"`, partition
`{"dt": "2024-01-01"}` and bucket 3, the file names
`"data-0001.parquet"` and `"data-0002.parquet"` are distinct and resolve
to distinct paths. -/
theorem set_file_path_injective_witness :
    sampleMeta.file_name ≠ sampleMetaB.file_name ∧
    (sampleMeta.set_file_path (PyPath.parse "/warehouse/t1")
        [("dt", "2024-01-01")] 3).file_path ≠
      (sampleMetaB.set_file_path (PyPath.parse "/warehouse/t1")
        [("dt", "2024-01-01")] 3).file_path := by
  refine ⟨by decide, ?_⟩
  exact (set_file_path_injective (PyPath.parse "/warehouse/t1")
    [("dt", "2024-01-01")] 3 sampleMeta sampleMetaB
    (by decide) (by decide)).1 (by decide)

/-- C8: with a zero-column (empty) partition the resolved path has no
partition segments: it is the rendered table root, then the bucket
segment, then the file name.  The file name is assumed to be a plain
path segment and the table root to have at least one component. -/
theorem set_file_path_unpartitioned (m : DataFileMeta) (root : PyPath)
    (bucket : Int) (hname : isPlainSeg m.file_name)
    (hroot : root.parts ≠ []) :
    (m.set_file_path root [] bucket).file_path =
      some (root.render ++ "/" ++ ("bucket-" ++ toString bucket) ++ "/" ++
        m.file_name) := by
  unfold DataFileMeta.set_file_path
  rw [List.foldl_nil]
  dsimp only
  rw [join_plain _ _ (bucket_seg_plain bucket), join_plain _ _ hname]
  have hb : root.parts ++ ["bucket-" ++ toString bucket] ≠ [] := by simp
  rw [show (root.parts ++ ["bucket-" ++ toString bucket]) ++ [m.file_name] =
    (root.parts ++ ["bucket-" ++ toString bucket]) ++ [m.file_name] from rfl]
  rw [render_snoc root.absolute _ m.file_name hb,
    render_snoc root.absolute root.parts _ hroot]

/-- A third concrete record, with the unpartitioned example file name. -/
def sampleMetaC : DataFileMeta := { sampleMeta with file_name := "data-0000.parquet" }

/-- C8 witness: the spec example, unpartitioned table, bucket 0, file
name `"data-0000.parquet"`, root `"/warehouse/t2"`. -/
theorem set_file_path_unpartitioned_witness :
    (sampleMetaC.set_file_path (PyPath.parse "/warehouse/t2")
      [] 0).file_path =
      some "/warehouse/t2/bucket-0/data-0000.parquet" := by
  have h := set_file_path_unpartitioned sampleMetaC
    (PyPath.parse "/warehouse/t2") 0 (by decide) (by decide)
  exact h.trans (by decide)

/-- C9: `set_file_path` changes only `file_path`; every other field of
the record is unchanged, and the operation touches no storage (it is a
pure record update in this embedding). -/
theorem set_file_path_frame (m : DataFileMeta) (root : PyPath)
    (partition : BinaryRow) (bucket : Int) :
    (m.set_file_path root partition bucket).file_name = m.file_name ∧
    (m.set_file_path root partition bucket).file_size = m.file_size ∧
    (m.set_file_path root partition bucket).row_count = m.row_count ∧
    (m.set_file_path root partition bucket).min_key = m.min_key ∧
    (m.set_file_path root partition bucket).max_key = m.max_key ∧
    (m.set_file_path root partition bucket).key_stats = m.key_stats ∧
    (m.set_file_path root partition bucket).value_stats = m.value_stats ∧
    (m.set_file_path root partition bucket).min_sequence_number =
      m.min_sequence_number ∧
    (m.set_file_path root partition bucket).max_sequence_number =
      m.max_sequence_number ∧
    (m.set_file_path root partition bucket).schema_id = m.schema_id ∧
    (m.set_file_path root partition bucket).level = m.level ∧
    (m.set_file_path root partition bucket).extra_files = m.extra_files ∧
    (m.set_file_path root partition bucket).creation_time =
      m.creation_time ∧
    (m.set_file_path root partition bucket).delete_row_count =
      m.delete_row_count ∧
    (m.set_file_path root partition bucket).embedded_index =
      m.embedded_index ∧
    (m.set_file_path root partition bucket).file_source = m.file_source ∧
    (m.set_file_path root partition bucket).value_stats_cols =
      m.value_stats_cols ∧
    (m.set_file_path root partition bucket).external_path =
      m.external_path :=
  ⟨rfl, rfl, rfl, rfl, rfl, rfl, rfl, rfl, rfl, rfl, rfl, rfl, rfl, rfl,
    rfl, rfl, rfl, rfl⟩

/-- C10: the stored path depends only on the table root, the partition,
the bucket and `file_name`; two records with equal file names receive
equal paths whatever their other fields, in particular `external_path`
does not influence the computation. -/
theorem set_file_path_name_determined (root : PyPath)
    (partition : BinaryRow) (bucket : Int) (m1 m2 : DataFileMeta)
    (h : m1.file_name = m2.file_name) :
    (m1.set_file_path root partition bucket).file_path =
      (m2.set_file_path root partition bucket).file_path := by
  unfold DataFileMeta.set_file_path
  dsimp only
  rw [h]

/-- A record sharing `sampleMeta`'s file name but with `external_path`
set and different size and level. -/
def sampleMetaD : DataFileMeta := { sampleMeta with external_path := some "s3://b/other", file_size := 7, level := 4 }

/-- C10 witness: two records sharing a file name, one with
`external_path` set and different statistics, receive the same path. -/
theorem set_file_path_name_determined_witness :
    (sampleMeta.set_file_path (PyPath.parse "/warehouse/t1")
        [("dt", "2024-01-01")] 3).file_path =
      (sampleMetaD.set_file_path
        (PyPath.parse "/warehouse/t1") [("dt", "2024-01-01")] 3).file_path :=
  set_file_path_name_determined (PyPath.parse "/warehouse/t1")
    [("dt", "2024-01-01")] 3 sampleMeta sampleMetaD rfl

/-- C3: the schema descriptor lists exactly the 18 durable fields in the
documented order; the first 12 are required (not nullable, no default)
and the trailing 6 are nullable with an explicit default of null. -/
theorem schema_descriptor_layout :
    DATA_FILE_META_SCHEMA.fields.map AvroField.name =
      ["_FILE_NAME", "_FILE_SIZE", "_ROW_COUNT", "_MIN_KEY", "_MAX_KEY",
        "_KEY_STATS", "_VALUE_STATS", "_MIN_SEQUENCE_NUMBER",
        "_MAX_SEQUENCE_NUMBER", "_SCHEMA_ID", "_LEVEL", "_EXTRA_FILES",
        "_CREATION_TIME", "_DELETE_ROW_COUNT", "_EMBEDDED_FILE_INDEX",
        "_FILE_SOURCE", "_VALUE_STATS_COLS", "_EXTERNAL_PATH"] ∧
    DATA_FILE_META_SCHEMA.fields.map AvroField.type =
      [.aString, .aLong, .aLong, .aBytes, .aBytes, .aLong, .aLong, .aLong,
        .aLong, .aLong, .aInt, .aArray .aString, .aUnion .aNull .aLong,
        .aUnion .aNull .aLong, .aUnion .aNull .aBytes, .aUnion .aNull .aInt,
        .aUnion .aNull (.aArray .aString), .aUnion .aNull .aString] ∧
    DATA_FILE_META_SCHEMA.fields.length = 18 ∧
    (DATA_FILE_META_SCHEMA.fields.take 12).all
      (fun f => !f.nullable && f.default = none) = true ∧
    (DATA_FILE_META_SCHEMA.fields.drop 12).all
      (fun f => f.nullable && f.default = some AvroValue.vNull) = true := by
  refine ⟨rfl, rfl, rfl, ?_, ?_⟩ <;> decide

/-- C4: decoding a raw record that carries only the 12 required fields
succeeds, reproduces those 12 values, and resolves each of the 6
optional trailing fields to its default, null. -/
theorem decode_missing_optionals (fn : String) (fs rc ks vs mins maxs sid
    lvl : Int) (mk1 mk2 : List Nat) (ef : List String) :
    decodeRecord DATA_FILE_META_SCHEMA
      [("_FILE_NAME", .vString fn), ("_FILE_SIZE", .vLong fs),
        ("_ROW_COUNT", .vLong rc), ("_MIN_KEY", .vBytes mk1),
        ("_MAX_KEY", .vBytes mk2), ("_KEY_STATS", .vLong ks),
        ("_VALUE_STATS", .vLong vs), ("_MIN_SEQUENCE_NUMBER", .vLong mins),
        ("_MAX_SEQUENCE_NUMBER", .vLong maxs), ("_SCHEMA_ID", .vLong sid),
        ("_LEVEL", .vInt lvl), ("_EXTRA_FILES", .vArrayString ef)] =
      Except.ok [.vString fn, .vLong fs, .vLong rc, .vBytes mk1,
        .vBytes mk2, .vLong ks, .vLong vs, .vLong mins, .vLong maxs,
        .vLong sid, .vInt lvl, .vArrayString ef, .vNull, .vNull, .vNull,
        .vNull, .vNull, .vNull] := rfl

/-- C5: a valid record has `min_sequence_number <= max_sequence_number`. -/
theorem wellFormed_seq_le (m : DataFileMeta) (h : m.wellFormed) :
    m.min_sequence_number ≤ m.max_sequence_number := h.2.2.2.1

/-- C5 witness: `sampleMeta` is valid and its sequence range is ordered. -/
theorem wellFormed_seq_le_witness :
    sampleMeta.wellFormed ∧
      sampleMeta.min_sequence_number ≤ sampleMeta.max_sequence_number :=
  ⟨by decide, wellFormed_seq_le sampleMeta (by decide)⟩

/-- C6: a valid record has `min_key` and `max_key` both present or both
absent, never exactly one of the two. -/
theorem wellFormed_keys_together (m : DataFileMeta) (h : m.wellFormed) :
    (m.min_key = none ↔ m.max_key = none) := h.2.2.2.2

/-- C6 witness: `sampleMeta` is valid and its key bounds agree on
absence. -/
theorem wellFormed_keys_together_witness :
    sampleMeta.wellFormed ∧
      (sampleMeta.min_key = none ↔ sampleMeta.max_key = none) :=
  ⟨by decide, wellFormed_keys_together sampleMeta (by decide)⟩

/-- C7: the schema descriptor has no field for `file_path` — neither the
durable naming (`_FILE_PATH`) nor the in-memory attribute name appears —
so `file_path` is never written to or read from a manifest. -/
theorem schema_omits_file_path :
    ((DATA_FILE_META_SCHEMA.fields.map AvroField.name).contains
      "_FILE_PATH") = false ∧
    ((DATA_FILE_META_SCHEMA.fields.map AvroField.name).contains
      "file_path") = false := by decide

end Paimon
